import Mathlib

/-!
Verification of the fake_dpi window decorator (src/lib.rs).

Shallow embedding: `f64` coordinates and sizes are modelled by exact
rationals `ℚ`, `u32` timestamps by `Nat`.  The external `window` and
`input` crates are modelled structurally: the `Window` and
`AdvancedWindow` traits become records of operations over an abstract
window state `W` (mutation becomes explicit state passing), the
`Input` event union becomes an inductive type whose opaque payloads
(buttons, touch, controller axes, file drags) are carried through
unchanged, matching how the decorator treats them.
-/

namespace FakeDpi

/-- Window size, `window::Size { width: f64, height: f64 }`. -/
structure Size where
  width : ℚ
  height : ℚ
deriving DecidableEq, Repr

/-- Window position, `window::Position { x: i32, y: i32 }`. -/
structure Position where
  x : Int
  y : Int
deriving DecidableEq, Repr

/-- Rust `input::TimeStamp` (a `u32`). -/
abbrev TimeStamp := Nat

/-- Rust `std::time::Duration`, opaque to this layer (forwarded verbatim). -/
abbrev Duration := Nat

/-- Opaque payload of touch-motion events from the external `input`
crate; the decorator carries it through unchanged. -/
structure TouchArgs where
  device : Int
  id : Int
  x : ℚ
  y : ℚ
  pressure : ℚ
deriving DecidableEq, Repr

/-- Opaque payload of controller-axis events from the external `input`
crate; the decorator carries it through unchanged. -/
structure ControllerAxisArgs where
  id : Int
  axis : Nat
  position : ℚ
deriving DecidableEq, Repr

/-- Opaque payload of button press/release events from the external
`input` crate; the decorator carries it through unchanged.  The
button identity is abstracted to a numeric code. -/
structure ButtonArgs where
  press : Bool
  button : Nat
  scancode : Option Int
deriving DecidableEq, Repr

/-- Rust `input::FileDrag`: file drag/drop events, carried through unchanged. -/
inductive FileDrag where
  | Hover (path : String)
  | Drop (path : String)
  | Cancel
deriving DecidableEq, Repr

/-- Rust `input::CloseArgs` (an empty struct). -/
structure CloseArgs where
deriving DecidableEq, Repr

/-- Rust `input::Motion`: motion sub-variants; the mouse variants carry a
two-component `[f64; 2]` coordinate, modelled as a pair. -/
inductive Motion where
  | MouseCursor (pos : ℚ × ℚ)
  | MouseRelative (pos : ℚ × ℚ)
  | MouseScroll (pos : ℚ × ℚ)
  | ControllerAxis (args : ControllerAxisArgs)
  | Touch (args : TouchArgs)
deriving DecidableEq, Repr

/-- Rust `input::ResizeArgs { window_size: [f64; 2], draw_size: [u32; 2] }`. -/
structure ResizeArgs where
  window_size : ℚ × ℚ
  draw_size : Nat × Nat
deriving DecidableEq, Repr

/-- Rust `input::Input`: the closed event union handled by `map_input`. -/
inductive Input where
  | Button (args : ButtonArgs)
  | Move (motion : Motion)
  | Text (text : String)
  | Resize (args : ResizeArgs)
  | Focus (focused : Bool)
  | Cursor (inside : Bool)
  | FileDrag (drag : FileDrag)
  | Close (args : CloseArgs)
deriving DecidableEq, Repr

/-- Rust `fn map_input(dpi: f64, e: Input) -> Input` from src/lib.rs. -/
def map_input (dpi : ℚ) (e : Input) : Input :=
  match e with
  | .Focus _ | .Cursor _ | .Move (.Touch _) | .Move (.ControllerAxis _)
  | .Button _ | .Text _ | .FileDrag _ | .Close _ => e
  | .Move (.MouseCursor pos) => .Move (.MouseCursor (pos.1 / dpi, pos.2 / dpi))
  | .Move (.MouseRelative pos) => .Move (.MouseRelative (pos.1 / dpi, pos.2 / dpi))
  | .Move (.MouseScroll pos) => .Move (.MouseScroll (pos.1 / dpi, pos.2 / dpi))
  | .Resize args => .Resize
      { draw_size := args.draw_size,
        window_size := (args.window_size.1 / dpi, args.window_size.2 / dpi) }

/-- Rust `window::WindowSettings`: the configuration value.  Besides the
requested size it carries further window-system settings (modelled by
a representative sample of fields) that the factory's clone must
preserve. -/
structure WindowSettings where
  size : Size
  title : String
  fullscreen : Bool
  exit_on_esc : Bool
  samples : Nat
  vsync : Bool
deriving DecidableEq, Repr

/-- Rust `WindowSettings::get_size`. -/
def WindowSettings.get_size (s : WindowSettings) : Size := s.size

/-- Rust `WindowSettings::set_size` (`&mut self` becomes a returned copy). -/
def WindowSettings.set_size (s : WindowSettings) (val : Size) : WindowSettings :=
  { s with size := val }

/-- Rust `pub struct FakeDpiWindow<W> { pub inner: W, pub dpi: f64 }`. -/
structure FakeDpiWindow (W : Type) where
  inner : W
  dpi : ℚ
deriving DecidableEq, Repr

/-- The `window::Window` trait as a record of operations on an abstract
window state `W`; `&mut self` methods return the updated state. -/
structure WindowOps (W : Type) where
  set_should_close : Bool → W → W
  should_close : W → Bool
  size : W → Size
  swap_buffers : W → W
  wait_event : W → (Input × Option TimeStamp) × W
  wait_event_timeout : Duration → W → Option (Input × Option TimeStamp) × W
  poll_event : W → Option (Input × Option TimeStamp) × W
  draw_size : W → Size

/-- The `window::AdvancedWindow` trait as a record of operations. -/
structure AdvancedWindowOps (W : Type) where
  get_title : W → String
  set_title : String → W → W
  get_exit_on_esc : W → Bool
  set_exit_on_esc : Bool → W → W
  get_automatic_close : W → Bool
  set_automatic_close : Bool → W → W
  set_capture_cursor : Bool → W → W
  show_window : W → W
  hide_window : W → W
  get_position : W → Option Position
  set_position : Position → W → W
  set_size : Size → W → W

/-- Rust `impl BuildFromWindowSettings for FakeDpiWindow<W>`: the `build`
capability of the inner type `W` is passed as a function, `?` on
`settings.build()` becomes the `match` on `Except`. -/
def build_from_window_settings {W E : Type} (build : WindowSettings → Except E W)
    (settings : WindowSettings) : Except E (FakeDpiWindow W) :=
  let dpi : ℚ := 2
  let size := settings.get_size
  let settings := settings.set_size
    { width := size.width * dpi, height := size.height * dpi }
  match build settings with
  | .ok inner => .ok { inner := inner, dpi := dpi }
  | .error e => .error e

/-- Rust `Window::set_should_close` for the decorator. -/
def FakeDpiWindow.set_should_close {W : Type} (ops : WindowOps W)
    (self : FakeDpiWindow W) (val : Bool) : FakeDpiWindow W :=
  { self with inner := ops.set_should_close val self.inner }

/-- Rust `Window::should_close` for the decorator. -/
def FakeDpiWindow.should_close {W : Type} (ops : WindowOps W)
    (self : FakeDpiWindow W) : Bool :=
  ops.should_close self.inner

/-- Rust `Window::size` for the decorator: inner size divided by `dpi`. -/
def FakeDpiWindow.size {W : Type} (ops : WindowOps W)
    (self : FakeDpiWindow W) : Size :=
  let size := ops.size self.inner
  { width := size.width / self.dpi, height := size.height / self.dpi }

/-- Rust `Window::swap_buffers` for the decorator. -/
def FakeDpiWindow.swap_buffers {W : Type} (ops : WindowOps W)
    (self : FakeDpiWindow W) : FakeDpiWindow W :=
  { self with inner := ops.swap_buffers self.inner }

/-- Rust `Window::wait_event` for the decorator. -/
def FakeDpiWindow.wait_event {W : Type} (ops : WindowOps W)
    (self : FakeDpiWindow W) : (Input × Option TimeStamp) × FakeDpiWindow W :=
  let r := ops.wait_event self.inner
  ((map_input self.dpi r.1.1, r.1.2), { self with inner := r.2 })

/-- Rust `Window::wait_event_timeout` for the decorator: the inner result is
`Option.map`-ped through `map_input`, as in the source. -/
def FakeDpiWindow.wait_event_timeout {W : Type} (ops : WindowOps W)
    (self : FakeDpiWindow W) (val : Duration) :
    Option (Input × Option TimeStamp) × FakeDpiWindow W :=
  let r := ops.wait_event_timeout val self.inner
  (r.1.map (fun p => (map_input self.dpi p.1, p.2)), { self with inner := r.2 })

/-- Rust `Window::poll_event` for the decorator. -/
def FakeDpiWindow.poll_event {W : Type} (ops : WindowOps W)
    (self : FakeDpiWindow W) :
    Option (Input × Option TimeStamp) × FakeDpiWindow W :=
  let r := ops.poll_event self.inner
  (r.1.map (fun p => (map_input self.dpi p.1, p.2)), { self with inner := r.2 })

/-- Rust `Window::draw_size` for the decorator (pass-through). -/
def FakeDpiWindow.draw_size {W : Type} (ops : WindowOps W)
    (self : FakeDpiWindow W) : Size :=
  ops.draw_size self.inner

/-- Rust `AdvancedWindow::get_title` for the decorator (pass-through). -/
def FakeDpiWindow.get_title {W : Type} (aops : AdvancedWindowOps W)
    (self : FakeDpiWindow W) : String :=
  aops.get_title self.inner

/-- Rust `AdvancedWindow::set_title` for the decorator (pass-through). -/
def FakeDpiWindow.set_title {W : Type} (aops : AdvancedWindowOps W)
    (self : FakeDpiWindow W) (val : String) : FakeDpiWindow W :=
  { self with inner := aops.set_title val self.inner }

/-- Rust `AdvancedWindow::get_position` for the decorator (pass-through). -/
def FakeDpiWindow.get_position {W : Type} (aops : AdvancedWindowOps W)
    (self : FakeDpiWindow W) : Option Position :=
  aops.get_position self.inner

/-- Rust `AdvancedWindow::set_position` for the decorator (pass-through). -/
def FakeDpiWindow.set_position {W : Type} (aops : AdvancedWindowOps W)
    (self : FakeDpiWindow W) (val : Position) : FakeDpiWindow W :=
  { self with inner := aops.set_position val self.inner }

/-- Rust `AdvancedWindow::set_size` for the decorator: the argument is
forwarded to the inner window UNSCALED (pass-through, no
multiplication by `dpi`). -/
def FakeDpiWindow.set_size {W : Type} (aops : AdvancedWindowOps W)
    (self : FakeDpiWindow W) (val : Size) : FakeDpiWindow W :=
  { self with inner := aops.set_size val self.inner }

/-- Variant tag of an event, distinguishing every constructor of
`Input` and every motion sub-variant. -/
def Input.tag : Input → Nat
  | .Button _ => 0
  | .Move (.MouseCursor _) => 1
  | .Move (.MouseRelative _) => 2
  | .Move (.MouseScroll _) => 3
  | .Move (.ControllerAxis _) => 4
  | .Move (.Touch _) => 5
  | .Text _ => 6
  | .Resize _ => 7
  | .Focus _ => 8
  | .Cursor _ => 9
  | .FileDrag _ => 10
  | .Close _ => 11

/-- A concrete inner window used to instantiate the abstract-window
theorems: it stores a size verbatim and serves events from a queue. -/
structure TestWin where
  sz : Size
  events : List (Input × Option TimeStamp)
deriving DecidableEq, Repr

/-- Concrete `Window` operations for `TestWin`. -/
def testOps : WindowOps TestWin :=
  { set_should_close := fun _ w => w
    should_close := fun _ => false
    size := fun w => w.sz
    swap_buffers := fun w => w
    wait_event := fun w =>
      match w.events with
      | [] => ((.Close {}, none), w)
      | e :: rest => (e, { w with events := rest })
    wait_event_timeout := fun _ w =>
      match w.events with
      | [] => (none, w)
      | e :: rest => (some e, { w with events := rest })
    poll_event := fun w =>
      match w.events with
      | [] => (none, w)
      | e :: rest => (some e, { w with events := rest })
    draw_size := fun w => w.sz }

/-- Concrete `AdvancedWindow` operations for `TestWin`: `set_size`
stores its argument verbatim. -/
def testAdvOps : AdvancedWindowOps TestWin :=
  { get_title := fun _ => ""
    set_title := fun _ w => w
    get_exit_on_esc := fun _ => false
    set_exit_on_esc := fun _ w => w
    get_automatic_close := fun _ => false
    set_automatic_close := fun _ w => w
    set_capture_cursor := fun _ w => w
    show_window := fun w => w
    hide_window := fun w => w
    get_position := fun _ => none
    set_position := fun _ w => w
    set_size := fun s w => { w with sz := s } }

/-- A concrete inner window holding physical size 1600 x 1200 with one
queued mouse-cursor event, used to instantiate the abstract-window
theorems. -/
def innerQ : TestWin :=
  { sz := { width := 1600, height := 1200 },
    events := [(.Move (.MouseCursor (400, 300)), some 5)] }

/-- A concrete inner window holding physical size 1600 x 1200 with an
empty event queue. -/
def innerE : TestWin :=
  { sz := { width := 1600, height := 1200 }, events := [] }

/-- A concrete `build` capability that always succeeds, returning a
window whose stored size is the size declared in the settings. -/
def buildOk : WindowSettings → Except Nat TestWin :=
  fun st => .ok { sz := st.get_size, events := [] }

/-- A concrete `build` capability that always fails with error 7. -/
def buildFail : WindowSettings → Except Nat TestWin :=
  fun _ => .error 7

/-- Concrete window settings requesting logical size 800 x 600. -/
def settingsA : WindowSettings :=
  { size := { width := 800, height := 600 }, title := "demo",
    fullscreen := false, exit_on_esc := true, samples := 4, vsync := true }

/-- C1: for every inner window and every scale factor stored in the
dpi field, `size` returns the inner window's reported physical size
with both dimensions divided by that factor (exact division, no
rounding or caching); hence changing the dpi field from f to g between
two `size` calls with the inner window unchanged rescales the result
by exactly f/g, without rebuilding the window. -/
theorem size_divides_by_dpi {W : Type} (ops : WindowOps W) (inner : W) (f g : ℚ)
    (hf : f ≠ 0) (hg : g ≠ 0) :
    FakeDpiWindow.size ops { inner := inner, dpi := f } =
      { width := (ops.size inner).width / f,
        height := (ops.size inner).height / f } ∧
    (FakeDpiWindow.size ops { inner := inner, dpi := g }).width =
      (f / g) * (FakeDpiWindow.size ops { inner := inner, dpi := f }).width ∧
    (FakeDpiWindow.size ops { inner := inner, dpi := g }).height =
      (f / g) * (FakeDpiWindow.size ops { inner := inner, dpi := f }).height := by
  refine ⟨rfl, ?_, ?_⟩ <;>
    simp only [FakeDpiWindow.size] <;> field_simp <;> ring

/-- Witness for C1: inner size 1600 x 1200, factors 2 and 4. -/
theorem size_divides_by_dpi_witness :
    FakeDpiWindow.size testOps { inner := innerE, dpi := 2 } =
      { width := (testOps.size innerE).width / 2,
        height := (testOps.size innerE).height / 2 } ∧
    (FakeDpiWindow.size testOps { inner := innerE, dpi := 4 }).width =
      ((2 : ℚ) / 4) * (FakeDpiWindow.size testOps { inner := innerE, dpi := 2 }).width ∧
    (FakeDpiWindow.size testOps { inner := innerE, dpi := 4 }).height =
      ((2 : ℚ) / 4) * (FakeDpiWindow.size testOps { inner := innerE, dpi := 2 }).height :=
  size_divides_by_dpi testOps innerE 2 4 (by decide) (by decide)

/-- C2: the factory fixes the scale factor to 2, asks the underlying
binding to build from a cloned configuration whose declared size
(w, h) has been replaced by (w * 2, h * 2), and on success returns a
decorator owning the built window with dpi = 2; the clone leaves every
other settings field (and the caller's original value, the embedding
being pure) unchanged. -/
theorem build_scales_settings {W E : Type} (build : WindowSettings → Except E W)
    (s : WindowSettings) (w : W)
    (h : build (s.set_size { width := s.get_size.width * 2, height := s.get_size.height * 2 }) = .ok w) :
    build_from_window_settings build s = .ok { inner := w, dpi := 2 } ∧
    (s.set_size { width := s.get_size.width * 2, height := s.get_size.height * 2 }).title = s.title ∧
    (s.set_size { width := s.get_size.width * 2, height := s.get_size.height * 2 }).fullscreen = s.fullscreen ∧
    (s.set_size { width := s.get_size.width * 2, height := s.get_size.height * 2 }).exit_on_esc = s.exit_on_esc ∧
    (s.set_size { width := s.get_size.width * 2, height := s.get_size.height * 2 }).samples = s.samples ∧
    (s.set_size { width := s.get_size.width * 2, height := s.get_size.height * 2 }).vsync = s.vsync := by
  refine ⟨?_, rfl, rfl, rfl, rfl, rfl⟩
  simp only [build_from_window_settings, h]

/-- Witness for C2: settings requesting 800 x 600 build a physical
window of 1600 x 1200 and the decorator gets dpi = 2. -/
theorem build_scales_settings_witness :
    build_from_window_settings buildOk settingsA =
      .ok { inner := { sz := { width := 1600, height := 1200 }, events := [] },
            dpi := 2 } ∧
    (settingsA.set_size { width := settingsA.get_size.width * 2, height := settingsA.get_size.height * 2 }).title = settingsA.title ∧
    (settingsA.set_size { width := settingsA.get_size.width * 2, height := settingsA.get_size.height * 2 }).fullscreen = settingsA.fullscreen ∧
    (settingsA.set_size { width := settingsA.get_size.width * 2, height := settingsA.get_size.height * 2 }).exit_on_esc = settingsA.exit_on_esc ∧
    (settingsA.set_size { width := settingsA.get_size.width * 2, height := settingsA.get_size.height * 2 }).samples = settingsA.samples ∧
    (settingsA.set_size { width := settingsA.get_size.width * 2, height := settingsA.get_size.height * 2 }).vsync = settingsA.vsync :=
  build_scales_settings buildOk settingsA
    { sz := { width := 1600, height := 1200 }, events := [] }
    (by norm_num [buildOk, settingsA, WindowSettings.set_size, WindowSettings.get_size])

/-- C9: if the underlying build operation fails, the factory returns
exactly the underlying error, unchanged, and no decorator value is
created (the `Except.error` result carries no window). -/
theorem build_propagates_error {W E : Type} (build : WindowSettings → Except E W)
    (s : WindowSettings) (err : E)
    (h : build (s.set_size { width := s.get_size.width * 2, height := s.get_size.height * 2 }) = .error err) :
    build_from_window_settings build s = .error err := by
  simp only [build_from_window_settings, h]

/-- Witness for C9: a build capability failing with error 7 makes the
factory fail with error 7. -/
theorem build_propagates_error_witness :
    build_from_window_settings buildFail settingsA = .error 7 :=
  build_propagates_error buildFail settingsA 7 rfl

/-- C6: each of `wait_event`, `wait_event_timeout` and `poll_event`
forwards to the corresponding inner-window operation; an obtained pair
(event, timestamp) is returned as (map_input dpi event, timestamp)
with the timestamp unchanged, and when the inner operation yields
nothing the decorator yields nothing. -/
theorem event_ops_forward {W : Type} (ops : WindowOps W) (a b : FakeDpiWindow W)
    (d : Duration) (e : Input) (t : Option TimeStamp) (w₁ w₂ w₃ w₄ w₅ : W)
    (hw : ops.wait_event a.inner = ((e, t), w₁))
    (hts : ops.wait_event_timeout d a.inner = (some (e, t), w₂))
    (hps : ops.poll_event a.inner = (some (e, t), w₃))
    (htn : ops.wait_event_timeout d b.inner = (none, w₄))
    (hpn : ops.poll_event b.inner = (none, w₅)) :
    FakeDpiWindow.wait_event ops a =
      ((map_input a.dpi e, t), { a with inner := w₁ }) ∧
    FakeDpiWindow.wait_event_timeout ops a d =
      (some (map_input a.dpi e, t), { a with inner := w₂ }) ∧
    FakeDpiWindow.poll_event ops a =
      (some (map_input a.dpi e, t), { a with inner := w₃ }) ∧
    FakeDpiWindow.wait_event_timeout ops b d = (none, { b with inner := w₄ }) ∧
    FakeDpiWindow.poll_event ops b = (none, { b with inner := w₅ }) := by
  refine ⟨?_, ?_, ?_, ?_, ?_⟩ <;>
    simp [FakeDpiWindow.wait_event, FakeDpiWindow.wait_event_timeout,
      FakeDpiWindow.poll_event, hw, hts, hps, htn, hpn]

/-- Witness for C6 at dpi 2 with a queued cursor event at (400, 300)
with timestamp 5, and an empty queue for the nothing cases. -/
theorem event_ops_forward_witness :
    FakeDpiWindow.wait_event testOps { inner := innerQ, dpi := 2 } =
      ((map_input 2 (.Move (.MouseCursor (400, 300))), some 5),
       { inner := innerE, dpi := 2 }) ∧
    FakeDpiWindow.wait_event_timeout testOps { inner := innerQ, dpi := 2 } 10 =
      (some (map_input 2 (.Move (.MouseCursor (400, 300))), some 5),
       { inner := innerE, dpi := 2 }) ∧
    FakeDpiWindow.poll_event testOps { inner := innerQ, dpi := 2 } =
      (some (map_input 2 (.Move (.MouseCursor (400, 300))), some 5),
       { inner := innerE, dpi := 2 }) ∧
    FakeDpiWindow.wait_event_timeout testOps { inner := innerE, dpi := 2 } 10 =
      (none, { inner := innerE, dpi := 2 }) ∧
    FakeDpiWindow.poll_event testOps { inner := innerE, dpi := 2 } =
      (none, { inner := innerE, dpi := 2 }) :=
  event_ops_forward testOps { inner := innerQ, dpi := 2 }
    { inner := innerE, dpi := 2 } 10 (.Move (.MouseCursor (400, 300))) (some 5)
    innerE innerE innerE innerE innerE
    (by decide) (by decide) (by decide) (by decide) (by decide)

/-- Dividing a nonzero rational by a factor other than 1 changes it. -/
theorem div_ne_self_of_ne (w d : ℚ) (hw : w ≠ 0) (hd : d ≠ 1) : w / d ≠ w := by
  intro h
  rcases eq_or_ne d 0 with h0 | h0
  · rw [h0, div_zero] at h
    exact hw h.symm
  · rw [div_eq_iff h0] at h
    have h1 : w * 1 = w * d := by rw [mul_one]; exact h
    exact hd (mul_left_cancel₀ hw h1).symm

/-- C8 counterexample: the claim fails at s = (0, 0).  With dpi = 2
(which is not 1) and an inner window that stores sizes verbatim,
`set_size` with (0, 0) followed by `size` DOES return (0, 0), because
0 divided by the scale factor is 0 again. -/
theorem set_size_size_roundtrip_zero :
    (2 : ℚ) ≠ 1 ∧
    FakeDpiWindow.size testOps
      (FakeDpiWindow.set_size testAdvOps { inner := innerE, dpi := 2 }
        { width := 0, height := 0 }) = { width := 0, height := 0 } := by
  refine ⟨by decide, ?_⟩
  norm_num [FakeDpiWindow.size, FakeDpiWindow.set_size, testOps, testAdvOps, innerE]

/-- C8 (amended): `set_size` forwards its size argument to the inner
window unchanged (no multiplication by the scale factor), while `size`
divides the inner window's size by the scale factor; so for every
dpi other than 1 and every size s with a nonzero dimension, calling
`set_size` with s and then `size` on an inner window that stores sizes
verbatim does not return s. -/
theorem set_size_size_asymmetry {W : Type} (ops : WindowOps W)
    (aops : AdvancedWindowOps W) (fw : FakeDpiWindow W) (s : Size)
    (hstore : ops.size (aops.set_size s fw.inner) = s)
    (hdpi : fw.dpi ≠ 1) (hs : s.width ≠ 0 ∨ s.height ≠ 0) :
    FakeDpiWindow.set_size aops fw s =
      { fw with inner := aops.set_size s fw.inner } ∧
    FakeDpiWindow.size ops (FakeDpiWindow.set_size aops fw s) ≠ s := by
  refine ⟨rfl, ?_⟩
  simp only [FakeDpiWindow.size, FakeDpiWindow.set_size, hstore]
  intro hEq
  rcases hs with hw | hh
  · exact div_ne_self_of_ne s.width fw.dpi hw hdpi (congrArg Size.width hEq)
  · exact div_ne_self_of_ne s.height fw.dpi hh hdpi (congrArg Size.height hEq)

/-- Witness for the amended C8: dpi = 2, s = (10, 6); the round trip
returns (5, 3), not s. -/
theorem set_size_size_asymmetry_witness :
    FakeDpiWindow.set_size testAdvOps { inner := innerE, dpi := 2 }
      { width := 10, height := 6 } =
      { inner := testAdvOps.set_size { width := 10, height := 6 } innerE,
        dpi := 2 } ∧
    FakeDpiWindow.size testOps
      (FakeDpiWindow.set_size testAdvOps { inner := innerE, dpi := 2 }
        { width := 10, height := 6 }) ≠ { width := 10, height := 6 } :=
  set_size_size_asymmetry testOps testAdvOps { inner := innerE, dpi := 2 }
    { width := 10, height := 6 } (by decide) (by decide) (Or.inl (by decide))

/-- C3: for every factor f > 0 and every absolute mouse-cursor,
relative mouse-motion, or mouse-scroll event with coordinates (x, y),
`map_input` returns the same event variant with coordinates
(x/f, y/f). -/
theorem map_input_scales_pointer (f : ℚ) (_hf : 0 < f) (x y : ℚ) :
    map_input f (.Move (.MouseCursor (x, y))) =
      .Move (.MouseCursor (x / f, y / f)) ∧
    map_input f (.Move (.MouseRelative (x, y))) =
      .Move (.MouseRelative (x / f, y / f)) ∧
    map_input f (.Move (.MouseScroll (x, y))) =
      .Move (.MouseScroll (x / f, y / f)) :=
  ⟨rfl, rfl, rfl⟩

/-- Witness for C3 at f = 2 and coordinates (400, 300). -/
theorem map_input_scales_pointer_witness :
    map_input 2 (.Move (.MouseCursor (400, 300))) =
      .Move (.MouseCursor ((400 : ℚ) / 2, (300 : ℚ) / 2)) ∧
    map_input 2 (.Move (.MouseRelative (400, 300))) =
      .Move (.MouseRelative ((400 : ℚ) / 2, (300 : ℚ) / 2)) ∧
    map_input 2 (.Move (.MouseScroll (400, 300))) =
      .Move (.MouseScroll ((400 : ℚ) / 2, (300 : ℚ) / 2)) :=
  map_input_scales_pointer 2 (by decide) 400 300

/-- C4: for every factor f > 0 and every resize event with draw size d
and window size (w, h), `map_input` returns a resize event with draw
size exactly d, unchanged, and window size (w/f, h/f). -/
theorem map_input_scales_resize (f : ℚ) (_hf : 0 < f) (d : Nat × Nat) (w h : ℚ) :
    map_input f (.Resize { window_size := (w, h), draw_size := d }) =
      .Resize { window_size := (w / f, h / f), draw_size := d } :=
  rfl

/-- Witness for C4 at f = 2, draw size (1600, 1200), window size (1600, 1200). -/
theorem map_input_scales_resize_witness :
    map_input 2 (.Resize { window_size := (1600, 1200), draw_size := (1600, 1200) }) =
      .Resize { window_size := ((1600 : ℚ) / 2, (1200 : ℚ) / 2),
                draw_size := (1600, 1200) } :=
  map_input_scales_resize 2 (by decide) (1600, 1200) 1600 1200

/-- C5: for every factor f and every non-geometric event variant
(focus, cursor-enter/leave, touch motion, controller-axis motion,
button press/release, text input, file-drag/drop, close request),
`map_input` returns the event completely unchanged. -/
theorem map_input_fixes_nongeometric (f : ℚ) :
    (∀ b, map_input f (.Focus b) = .Focus b) ∧
    (∀ b, map_input f (.Cursor b) = .Cursor b) ∧
    (∀ a, map_input f (.Move (.Touch a)) = .Move (.Touch a)) ∧
    (∀ a, map_input f (.Move (.ControllerAxis a)) = .Move (.ControllerAxis a)) ∧
    (∀ a, map_input f (.Button a) = .Button a) ∧
    (∀ t, map_input f (.Text t) = .Text t) ∧
    (∀ d, map_input f (.FileDrag d) = .FileDrag d) ∧
    (∀ c, map_input f (.Close c) = .Close c) :=
  ⟨fun _ => rfl, fun _ => rfl, fun _ => rfl, fun _ => rfl,
   fun _ => rfl, fun _ => rfl, fun _ => rfl, fun _ => rfl⟩

/-- Scalar fact behind the inverse-factor round trip: dividing by f
and then by 1/f recovers the input exactly over ℚ. -/
theorem div_div_one_div (x f : ℚ) (hf : f ≠ 0) : x / f / (1 / f) = x := by
  field_simp

/-- C7: for every factor f > 0 and every event e (in particular each
coordinate-bearing one), applying `map_input` with f and then with the
inverse factor 1/f returns e; over the exact-rational model of the
coordinates the round trip is exact. -/
theorem map_input_inverse (f : ℚ) (hf : 0 < f) (e : Input) :
    map_input (1 / f) (map_input f e) = e := by
  have hf0 : f ≠ 0 := ne_of_gt hf
  cases e with
  | Move m =>
    cases m with
    | MouseCursor pos =>
      simp only [map_input, Input.Move.injEq, Motion.MouseCursor.injEq]
      rw [div_div_one_div _ _ hf0, div_div_one_div _ _ hf0]
    | MouseRelative pos =>
      simp only [map_input, Input.Move.injEq, Motion.MouseRelative.injEq]
      rw [div_div_one_div _ _ hf0, div_div_one_div _ _ hf0]
    | MouseScroll pos =>
      simp only [map_input, Input.Move.injEq, Motion.MouseScroll.injEq]
      rw [div_div_one_div _ _ hf0, div_div_one_div _ _ hf0]
    | ControllerAxis a => rfl
    | Touch a => rfl
  | Resize a =>
    simp only [map_input, Input.Resize.injEq]
    rw [div_div_one_div _ _ hf0, div_div_one_div _ _ hf0]
  | Button a => rfl
  | Text t => rfl
  | Focus b => rfl
  | Cursor b => rfl
  | FileDrag d => rfl
  | Close c => rfl

/-- Witness for C7 at f = 2 and a cursor event at (10, 7). -/
theorem map_input_inverse_witness :
    map_input (1 / 2) (map_input 2 (.Move (.MouseCursor (10, 7)))) =
      .Move (.MouseCursor (10, 7)) :=
  map_input_inverse 2 (by decide) (.Move (.MouseCursor (10, 7)))

/-- C10: for every factor f and every event e, `map_input` preserves
the event's variant tag: the result is built from the same constructor
(down to the motion sub-variant) as the input. -/
theorem map_input_preserves_tag (f : ℚ) (e : Input) :
    Input.tag (map_input f e) = Input.tag e := by
  cases e with
  | Move m => cases m <;> rfl
  | Button a => rfl
  | Text t => rfl
  | Resize a => rfl
  | Focus b => rfl
  | Cursor b => rfl
  | FileDrag d => rfl
  | Close c => rfl

end FakeDpi
